import Mathlib

/-!
Verification development for `unreal_cv_ros/src/sensor_model.py`.

The file shallowly embeds the `SensorModel` node: the color packing
`rgb_to_float` (a byte-level bit reinterpretation of a packed 24-bit RGB
integer into a 32-bit float slot), the per-pixel depth projection
`depth_to_3d` (over the reals), the shape-level behaviour of the per-frame
`callback` (numpy broadcasting and stacking of the arrays it builds, and the
metadata fields of the published `PointCloud2` message), and the
initialization logic of `SensorModel.__init__`.
-/

namespace SensorModel

/-! ### Color packing (`rgb_to_float`, lines 105-114)

The python code computes, per pixel,
`color = np.left_shift(r, 16) + np.left_shift(g, 8) + b` on non-negative
ints, then `pack` with an `i` format serializes each value as a
little-endian signed 32-bit integer and `unpack` with an `f` format
reinterprets the same four bytes as a 32-bit float.  We model a float by its bit pattern (a
natural number below 2^32); `pack`/`unpack` is then the byte round-trip
below. -/

/-- Unsigned 32-bit pattern (two's complement) of a signed integer. -/
def uint32bits (c : Int) : Nat := (c % (2 ^ 32 : Int)).toNat

/-- Little-endian byte serialization of a signed 32-bit integer, as produced
by `pack` with format `i`: the two's-complement bit pattern split into four
bytes. -/
def int32Bytes (c : Int) : List Nat :=
  [uint32bits c % 2 ^ 8, uint32bits c / 2 ^ 8 % 2 ^ 8,
   uint32bits c / 2 ^ 16 % 2 ^ 8, uint32bits c / 2 ^ 24 % 2 ^ 8]

/-- Bit pattern held by little-endian bytes, as read by `unpack` with format
`f`: we identify a 32-bit float with its bit pattern, since `unpack` is a
pure bit reinterpretation of the buffer. -/
def bitsOfBytes : List Nat → Nat
  | [] => 0
  | b :: rest => b + 2 ^ 8 * bitsOfBytes rest

/-- Per-pixel integer computed by `rgb_to_float`:
`np.left_shift(r, 16) + np.left_shift(g, 8) + b`. -/
def packRGB (r g b : Nat) : Nat := (r <<< 16) + (g <<< 8) + b

/-- Bit pattern of the 32-bit float produced by `rgb_to_float` for one pixel:
the packed integer is serialized by `pack('i', -)` and the same bytes are
reinterpreted by `unpack('f', -)`. -/
def rgb_to_float_bits (r g b : Nat) : Nat :=
  bitsOfBytes (int32Bytes (Int.ofNat (packRGB r g b)))

/-- Downstream consumers recover the channels from the float's bit pattern:
`r = (bits >> 16) & 0xFF`, `g = (bits >> 8) & 0xFF`, `b = bits & 0xFF`. -/
def unpackRGB (bits : Nat) : Nat × Nat × Nat :=
  ((bits >>> 16) % 2 ^ 8, (bits >>> 8) % 2 ^ 8, bits % 2 ^ 8)

/-! ### Initialization (`SensorModel.__init__`, lines 22-48) -/

/-- Camera parameters as stored by `__init__`:
`self.camera_params = [resp.Width, resp.Height, resp.FocalLength]`.
The service reply carries unsigned integer dimensions and a real focal
length. -/
structure CameraParams where
  width : Nat
  height : Nat
  focalLength : ℝ

/-- Storage of the camera parameters by `__init__` (line 43): the reply
fields are stored verbatim, with no validation of any kind. -/
def initCameraParams (w h : Nat) (f : ℝ) : CameraParams :=
  { width := w, height := h, focalLength := f }

/-- Outcome of the model-selection part of `__init__` (lines 26-36) together
with the unconditional node wiring (lines 45-46). -/
structure InitResult where
  loggedFatal : Bool
  model : Option String
  subscribed : Bool
  deriving Repr, DecidableEq

/-- Model selection and node wiring of `__init__`:
`model_types = {'ground_truth': 'ground_truth'}`,
`selected = model_types.get(model_type_in, 'NotFound')`; on `'NotFound'`
the code calls `rospy.logfatal(...)` and does not set `self.model`, but
execution continues and `rospy.Subscriber('ue_sensor_raw', ..., self.callback)`
is registered either way. -/
def initSensorModel (model_type_in : String) : InitResult :=
  let selected := if model_type_in = "ground_truth" then "ground_truth" else "NotFound"
  if selected = "NotFound" then
    { loggedFatal := true, model := none, subscribed := true }
  else
    { loggedFatal := false, model := some selected, subscribed := true }

/-! ### Shape-level behaviour of the per-frame pipeline

`depth_to_3d` builds `cols, rows = np.meshgrid(linspace over width,
linspace over height)`; with numpy's default `indexing='xy'` both grids have
shape `(height, width)`.  `img_depth / (1 + (distance/f)**2)**0.5` then
follows numpy's elementwise broadcasting between the depth image's shape and
`(height, width)`, and `np.dstack` of the three coordinate planes with the
packed color plane requires the leading two dimensions to agree exactly. -/

/-- Numpy broadcast of one dimension pair: equal sizes, or one of them 1. -/
def broadcastDim (a b : Nat) : Option Nat :=
  if a = b then some a
  else if a = 1 then some b
  else if b = 1 then some a
  else none

/-- Numpy broadcast of two 2-D shapes. -/
def broadcastShape2 (s t : Nat × Nat) : Option (Nat × Nat) :=
  match broadcastDim s.1 t.1, broadcastDim s.2 t.2 with
  | some h, some w => some (h, w)
  | _, _ => none

/-- Shape of the array returned by `depth_to_3d` (lines 85-103): the pixel
grids have shape `(height, width)`, the depth image broadcasts against them,
and `np.dstack([points_x, points_y, points_z])` appends a length-3 axis.
`none` models the numpy broadcasting error. -/
def depth_to_3d_shape (camWidth camHeight : Nat) (depthShape : Nat × Nat) :
    Option (Nat × Nat × Nat) :=
  match broadcastShape2 depthShape (camHeight, camWidth) with
  | some hw => some (hw.1, hw.2, 3)
  | none => none

/-- Shape of the array returned by `rgb_to_float` (lines 105-114): the input
must have at least 3 channels for `img_color[:, :, 2]` to exist, and the
result is reshaped to `(np.size(img_color, 0), np.size(img_color, 1))`. -/
def rgb_to_float_shape (colorShape : Nat × Nat × Nat) : Option (Nat × Nat) :=
  if 3 ≤ colorShape.2.2 then some (colorShape.1, colorShape.2.1) else none

/-- Shape of `np.dstack((pointcloud, rgb))` (line 66): stacking along the
third axis requires the leading two dimensions to agree exactly; on success
the third dimension grows by one. -/
def dstack_shape (a : Nat × Nat × Nat) (b : Nat × Nat) : Option (Nat × Nat × Nat) :=
  if a.1 = b.1 ∧ a.2.1 = b.2 then some (a.1, a.2.1, a.2.2 + 1) else none

/-- Metadata fields of the published `PointCloud2` message (lines 68-82). -/
structure CloudMsgMeta where
  width : Nat
  height : Nat
  point_step : Nat
  row_step : Nat
  is_dense : Bool
  deriving Repr, DecidableEq

/-- Shape-level embedding of `SensorModel.callback` (lines 51-83): project
the depth image, pack the color image, stack them, and fill the message
fields `msg.width = pointcloud.shape[0]`, `msg.height = pointcloud.shape[1]`,
`msg.point_step = 16`, `msg.row_step = msg.point_step * msg.width`,
`msg.is_dense = True`.  `none` models an exception escaping the callback
(the code contains no shape checks of its own). -/
def callbackMsgMeta (camWidth camHeight : Nat) (depthShape : Nat × Nat)
    (colorShape : Nat × Nat × Nat) : Option CloudMsgMeta :=
  match depth_to_3d_shape camWidth camHeight depthShape with
  | none => none
  | some pcShape =>
    match rgb_to_float_shape colorShape with
    | none => none
    | some rgbShape =>
      match dstack_shape pcShape rgbShape with
      | none => none
      | some _ =>
        some { width := pcShape.1
               height := pcShape.2.1
               point_step := 16
               row_step := 16 * pcShape.1
               is_dense := true }

/-- Mutable state of the node object: the fields `__init__` assigns to
`self`. -/
structure SensorState where
  model : Option String
  cameraParams : CameraParams

/-- State-passing embedding of the `callback` method: the python body reads
`self.camera_params` but assigns to no attribute of `self`, so the state
passes through unchanged alongside the published message. -/
def callbackStep (s : SensorState) (depthShape : Nat × Nat)
    (colorShape : Nat × Nat × Nat) : SensorState × Option CloudMsgMeta :=
  (s, callbackMsgMeta s.cameraParams.width s.cameraParams.height depthShape colorShape)

/-! ### Per-pixel depth projection (`depth_to_3d`, lines 85-103), over ℝ

The code computes, with `dx = cols - center_x` and `dy = rows - center_y`,
`distance = (dy ** 2 + dx ** 2) ** 0.5`,
`points_z = img_depth / (1 + (distance / f) ** 2) ** 0.5`,
`points_x = points_z * dx / f`, `points_y = points_z * dy / f`.
Exponentiation by `0.5` on a non-negative base is the square root. -/

/-- Radial pixel distance from the image center:
`((rows - center_y) ** 2 + (cols - center_x) ** 2) ** 0.5`. -/
noncomputable def pixelDistance (dx dy : ℝ) : ℝ := Real.sqrt (dy ^ 2 + dx ^ 2)

/-- Axial depth at one pixel:
`img_depth / (1 + (distance / f) ** 2) ** 0.5`. -/
noncomputable def points_z (f depth dx dy : ℝ) : ℝ :=
  depth / Real.sqrt (1 + (pixelDistance dx dy / f) ^ 2)

/-- X coordinate at one pixel: `points_z * (cols - center_x) / f`. -/
noncomputable def points_x (f depth dx dy : ℝ) : ℝ :=
  points_z f depth dx dy * dx / f

/-- Y coordinate at one pixel: `points_z * (rows - center_y) / f`. -/
noncomputable def points_y (f depth dx dy : ℝ) : ℝ :=
  points_z f depth dx dy * dy / f

/-! ### Helper lemmas -/

/-- The divisor of `points_z` is at least 1. -/
lemma one_le_points_z_divisor (f dx dy : ℝ) :
    1 ≤ Real.sqrt (1 + (pixelDistance dx dy / f) ^ 2) := by
  have h : (1 : ℝ) ≤ 1 + (pixelDistance dx dy / f) ^ 2 :=
    le_add_of_nonneg_right (sq_nonneg _)
  calc (1 : ℝ) = Real.sqrt 1 := Real.sqrt_one.symm
    _ ≤ _ := Real.sqrt_le_sqrt h

/-- The divisor of `points_z` is positive. -/
lemma points_z_divisor_pos (f dx dy : ℝ) :
    0 < Real.sqrt (1 + (pixelDistance dx dy / f) ^ 2) :=
  lt_of_lt_of_le one_pos (one_le_points_z_divisor f dx dy)

/-- Square of the divisor of `points_z`. -/
lemma points_z_divisor_sq (f dx dy : ℝ) :
    Real.sqrt (1 + (pixelDistance dx dy / f) ^ 2) ^ 2 = 1 + (dy ^ 2 + dx ^ 2) / f ^ 2 := by
  have hs : (0 : ℝ) ≤ dy ^ 2 + dx ^ 2 := by positivity
  rw [Real.sq_sqrt (by positivity), div_pow, pixelDistance, Real.sq_sqrt hs]

/-- Sum of squares of the projected coordinates. -/
lemma points_sum_sq (f depth dx dy : ℝ) (hf : f ≠ 0) :
    points_x f depth dx dy ^ 2 + points_y f depth dx dy ^ 2 + points_z f depth dx dy ^ 2
      = depth ^ 2 := by
  have hD0 : Real.sqrt (1 + (pixelDistance dx dy / f) ^ 2) ≠ 0 :=
    ne_of_gt (points_z_divisor_pos f dx dy)
  have hD2 := points_z_divisor_sq f dx dy
  have hz : points_z f depth dx dy * Real.sqrt (1 + (pixelDistance dx dy / f) ^ 2) = depth :=
    div_mul_cancel₀ depth hD0
  have hstep : points_x f depth dx dy ^ 2 + points_y f depth dx dy ^ 2
      + points_z f depth dx dy ^ 2
      = points_z f depth dx dy ^ 2 * (1 + (dy ^ 2 + dx ^ 2) / f ^ 2) := by
    rw [points_x, points_y]
    field_simp
    ring
  calc points_x f depth dx dy ^ 2 + points_y f depth dx dy ^ 2 + points_z f depth dx dy ^ 2
      = points_z f depth dx dy ^ 2 * (1 + (dy ^ 2 + dx ^ 2) / f ^ 2) := hstep
    _ = points_z f depth dx dy ^ 2 * Real.sqrt (1 + (pixelDistance dx dy / f) ^ 2) ^ 2 := by
        rw [hD2]
    _ = (points_z f depth dx dy * Real.sqrt (1 + (pixelDistance dx dy / f) ^ 2)) ^ 2 := by
        ring
    _ = depth ^ 2 := by rw [hz]

/-- Byte round trip: serializing a non-negative 32-bit value as a
little-endian int32 and reading the bytes back is the identity on bit
patterns. -/
lemma bitsOfBytes_int32Bytes (n : Nat) (hn : n < 2 ^ 32) :
    bitsOfBytes (int32Bytes (Int.ofNat n)) = n := by
  have h2 : uint32bits (Int.ofNat n) = n := by
    have hmod : Int.ofNat n % (2 ^ 32 : Int) = Int.ofNat n := by
      apply Int.emod_eq_of_lt (Int.ofNat_nonneg n)
      exact_mod_cast hn
    rw [uint32bits, hmod]
    exact Int.toNat_ofNat n
  simp only [int32Bytes, bitsOfBytes, h2]
  omega

/-- The packed integer in closed arithmetic form. -/
lemma packRGB_eq (r g b : Nat) : packRGB r g b = r * 65536 + g * 256 + b := by
  simp [packRGB, Nat.shiftLeft_eq]

/-! ### Claim theorems -/

/-- C2: color packing is a bijection on the 24-bit RGB space.  For every
`(r, g, b)` with each component below 256, `rgb_to_float` computes the
integer `c = (r <<< 16) ||| (g <<< 8) ||| b` and the bit pattern of the
serialized 32-bit float equals `c` exactly (the `pack`/`unpack` pair is a
bit reinterpretation, not a numeric cast), so reading the float's bits back
recovers exactly the original channels. -/
theorem rgb_packing_roundtrip (r g b : Nat) (hr : r < 256) (hg : g < 256) (hb : b < 256) :
    rgb_to_float_bits r g b = r <<< 16 ||| g <<< 8 ||| b ∧
    unpackRGB (rgb_to_float_bits r g b) = (r, g, b) := by
  have hpack := packRGB_eq r g b
  have hlt : packRGB r g b < 2 ^ 32 := by rw [hpack]; omega
  have hbits : rgb_to_float_bits r g b = packRGB r g b := by
    rw [rgb_to_float_bits]; exact bitsOfBytes_int32Bytes _ hlt
  have hor : r <<< 16 ||| g <<< 8 ||| b = r * 65536 + g * 256 + b := by
    rw [Nat.lor_assoc]
    have h1 : g <<< 8 ||| b = 2 ^ 8 * g + b := by
      rw [Nat.shiftLeft_eq, Nat.mul_comm]
      exact (Nat.mul_add_lt_is_or (by omega) g).symm
    have h2 : r <<< 16 ||| (2 ^ 8 * g + b) = 2 ^ 16 * r + (2 ^ 8 * g + b) := by
      rw [Nat.shiftLeft_eq, Nat.mul_comm]
      exact (Nat.mul_add_lt_is_or (by omega) r).symm
    rw [h1, h2]
    omega
  refine ⟨by rw [hbits, hpack, hor], ?_⟩
  rw [hbits, hpack, unpackRGB]
  simp only [Nat.shiftRight_eq_div_pow, Prod.mk.injEq]
  refine ⟨by omega, by omega, by omega⟩

/-- Witness for C2 at the concrete triple (255, 0, 0): the packed bit
pattern unpacks to the original channels. -/
theorem rgb_packing_roundtrip_witness :
    (255 : Nat) < 256 ∧ (0 : Nat) < 256 ∧
    unpackRGB (rgb_to_float_bits 255 0 0) = (255, 0, 0) :=
  ⟨by decide, by decide,
    (rgb_packing_roundtrip 255 0 0 (by decide) (by decide) (by decide)).2⟩

/-- C3: the projection preserves ray length.  For every pixel offset
`(dx, dy)`, depth ≥ 0 and focal length f > 0, the projected coordinates
satisfy `sqrt (x^2 + y^2 + z^2) = depth` (exact over ℝ, hence within
floating-point tolerance in the implementation). -/
theorem projection_preserves_ray_length (f depth dx dy : ℝ) (hd : 0 ≤ depth) (hf : 0 < f) :
    Real.sqrt (points_x f depth dx dy ^ 2 + points_y f depth dx dy ^ 2
      + points_z f depth dx dy ^ 2) = depth := by
  rw [points_sum_sq f depth dx dy (ne_of_gt hf), Real.sqrt_sq hd]

/-- Witness for C3 at f = 1, depth = 2, dx = 1, dy = 1. -/
theorem projection_preserves_ray_length_witness :
    (0 : ℝ) ≤ 2 ∧ (0 : ℝ) < 1 ∧
    Real.sqrt (points_x 1 2 1 1 ^ 2 + points_y 1 2 1 1 ^ 2 + points_z 1 2 1 1 ^ 2) = 2 :=
  ⟨by norm_num, by norm_num,
    projection_preserves_ray_length 1 2 1 1 (by norm_num) (by norm_num)⟩

/-- C4: at the image-center pixel, where `dx = cols - center_x = 0` and
`dy = rows - center_y = 0`, the projection returns x = 0, y = 0 and
z exactly equal to the input depth. -/
theorem projection_center_pixel (f depth : ℝ) (hf : 0 < f) :
    points_x f depth 0 0 = 0 ∧ points_y f depth 0 0 = 0 ∧
    points_z f depth 0 0 = depth := by
  have h0 : pixelDistance (0 : ℝ) 0 = 0 := by
    rw [pixelDistance]
    simp
  have hz : points_z f depth 0 0 = depth := by
    rw [points_z, h0]
    simp
  exact ⟨by rw [points_x]; simp, by rw [points_y]; simp, hz⟩

/-- Witness for C4 at f = 1, depth = 2. -/
theorem projection_center_pixel_witness :
    (0 : ℝ) < 1 ∧ points_x 1 2 0 0 = 0 ∧ points_y 1 2 0 0 = 0 ∧ points_z 1 2 0 0 = 2 :=
  ⟨by norm_num, projection_center_pixel 1 2 (by norm_num)⟩

/-- C8: a zero depth value projects to the origin without any
division-by-zero fault: the divisor of `points_z` is at least 1 (hence
nonzero), and x = y = z = 0 at every pixel of an all-zero depth frame. -/
theorem zero_depth_projects_to_origin (f dx dy : ℝ) (hf : 0 < f) :
    1 ≤ Real.sqrt (1 + (pixelDistance dx dy / f) ^ 2) ∧
    points_x f 0 dx dy = 0 ∧ points_y f 0 dx dy = 0 ∧ points_z f 0 dx dy = 0 := by
  have hz : points_z f 0 dx dy = 0 := by rw [points_z]; simp
  exact ⟨one_le_points_z_divisor f dx dy,
    by rw [points_x, hz]; simp, by rw [points_y, hz]; simp, hz⟩

/-- Witness for C8 at f = 1, dx = 3, dy = 4. -/
theorem zero_depth_projects_to_origin_witness :
    (0 : ℝ) < 1 ∧
    (1 ≤ Real.sqrt (1 + (pixelDistance 3 4 / 1) ^ 2) ∧
     points_x 1 0 3 4 = 0 ∧ points_y 1 0 3 4 = 0 ∧ points_z 1 0 3 4 = 0) :=
  ⟨by norm_num, zero_depth_projects_to_origin 1 3 4 (by norm_num)⟩

/-- C10: the projected axial depth is bounded by the input ray length:
for depth ≥ 0 and f > 0, `0 ≤ points_z ≤ depth`, because the divisor
`sqrt (1 + (r / f)^2)` is at least 1. -/
theorem projected_depth_bounded (f depth dx dy : ℝ) (hd : 0 ≤ depth) (hf : 0 < f) :
    0 ≤ points_z f depth dx dy ∧ points_z f depth dx dy ≤ depth := by
  constructor
  · exact div_nonneg hd (Real.sqrt_nonneg _)
  · exact div_le_self hd (one_le_points_z_divisor f dx dy)

/-- Witness for C10 at f = 1, depth = 2, dx = 1, dy = 1. -/
theorem projected_depth_bounded_witness :
    (0 : ℝ) ≤ 2 ∧ (0 : ℝ) < 1 ∧
    (0 ≤ points_z 1 2 1 1 ∧ points_z 1 2 1 1 ≤ 2) :=
  ⟨by norm_num, by norm_num, projected_depth_bounded 1 2 1 1 (by norm_num) (by norm_num)⟩

/-- C1 (divergence evidence): at the end-to-end scenario with image width 4
and height 2, the published message has `width = 2` (the image height),
`height = 4` (the image width) and `row_step = 32`, because
`depth_to_3d` returns an array of shape (height, width, 3) while `callback`
copies `pointcloud.shape[0]` into `msg.width`; `point_step = 16` and
`is_dense = true` do hold. -/
theorem callback_swaps_width_and_height :
    callbackMsgMeta 4 2 (2, 4) (2, 4, 3) =
      some { width := 2, height := 4, point_step := 16, row_step := 32, is_dense := true } := by
  rfl

/-- C5 (divergence evidence): with the unknown model name `foo`,
`__init__` logs a fatal-level message but does not halt: `self.model` is
left unset, yet the subscriber for incoming frames is still registered, so
frames are accepted and processed. -/
theorem unknown_model_still_subscribes :
    initSensorModel "foo" =
      { loggedFatal := true, model := none, subscribed := true } := by
  rfl

/-- C6 counterexample: a depth frame of shape (1, 4) and a color frame of
shape (2, 4, 3) differ in (height, width), yet with camera width 4 and
height 2 the callback broadcasts the depth frame against the pixel grid and
publishes a point cloud, instead of always failing. -/
theorem mismatched_frames_still_published :
    callbackMsgMeta 4 2 (1, 4) (2, 4, 3) =
      some { width := 2, height := 4, point_step := 16, row_step := 32, is_dense := true } := by
  rfl

/-- C6 amended: the callback has no shape validation and no
FrameMismatchError.  A mismatched depth frame whose shape broadcasts
against the camera grid is silently combined with the color frame and
published, while a non-broadcastable mismatch only raises a generic array
error at the stacking step (modelled as `none`). -/
theorem no_frame_mismatch_error :
    callbackMsgMeta 4 2 (1, 4) (2, 4, 3) =
      some { width := 2, height := 4, point_step := 16, row_step := 32, is_dense := true } ∧
    callbackMsgMeta 4 2 (2, 4) (2, 5, 3) = none := by
  exact ⟨rfl, rfl⟩

/-- C7 counterexample: construction with width 0, height 0 and focal
length -1 succeeds and stores the invalid parameters verbatim; no
ConfigurationError path exists. -/
theorem invalid_camera_params_accepted :
    initCameraParams 0 0 (-1) = { width := 0, height := 0, focalLength := -1 } := by
  rfl

/-- C7 amended: `__init__` performs no validation of the camera parameters:
whatever the service returns, including non-positive dimensions and a
non-positive focal length, is stored verbatim and construction always
succeeds. -/
theorem camera_params_stored_verbatim (w h : Nat) (f : ℝ) :
    (initCameraParams w h f).width = w ∧ (initCameraParams w h f).height = h ∧
    (initCameraParams w h f).focalLength = f :=
  ⟨rfl, rfl, rfl⟩

/-- C9: the per-frame callback never mutates the node state: the stored
model and camera parameters pass through every invocation unchanged (the
python method body assigns to no attribute of `self`). -/
theorem callback_preserves_state (s : SensorState) (depthShape : Nat × Nat)
    (colorShape : Nat × Nat × Nat) :
    (callbackStep s depthShape colorShape).1 = s := by
  rfl

end SensorModel
